import Mathlib

/-!
# Verification of the TACO tool-orchestration core

Shallow embedding, in Lean 4, of the parts of the `taco` repository that the
specification's testable claims are about:

* `taco/core/tool_stack.py` — the `ToolStack` workflow stack machine;
* `taco/core/message_handler.py` — tool-call parsing, stripping, response cleaning;
* `taco/tools/registry.py` — `Tool.convert_argument` type coercion;
* `taco/tools/builtin/basic.py` — `convert_temperature`;
* `taco/core/chat.py` — the second-model-call message selection in `ChatSession.ask`.

Python values reachable in these code paths are modelled by the inductive
`PyVal`; Python `float` is modelled by exact rationals `ℚ` (every concrete
computation the theorems below evaluate is exact in binary64 as well), with the
IEEE infinities and NaN as separate constructors since `json.loads` can produce
them.  Exceptions are modelled with `Except String` carrying the Python
exception class in the message.  Console interaction
(`rich.prompt.Prompt.ask`) is modelled by passing the user's answer as a
boolean argument; `datetime.now()` timestamps are passed as an explicit string
argument (no claim depends on them).
-/

/-- Model of the Python values flowing through the orchestration core:
`None`, `bool`, `int`, `float` (as exact `ℚ`, plus `inf`/`nan`), `str`,
the int-tuples produced by `convert_argument`, JSON lists and string-keyed
dicts. -/
inductive PyVal where
  | none
  | pybool (b : Bool)
  | pyint (n : Int)
  | pyfloat (q : ℚ)
  | pyinf (neg : Bool)
  | pynan
  | pystr (s : String)
  | pytuple (elems : List Int)
  | pylist (elems : List PyVal)
  | pydict (entries : List (String × PyVal))

/-- Python truthiness `bool(v)` for the modelled values. -/
def PyVal.truthy : PyVal → Bool
  | .none => false
  | .pybool b => b
  | .pyint n => decide (n ≠ 0)
  | .pyfloat q => decide (q ≠ 0)
  | .pyinf _ => true
  | .pynan => true
  | .pystr s => decide (s ≠ "")
  | .pytuple l => !l.isEmpty
  | .pylist l => !l.isEmpty
  | .pydict d => !d.isEmpty

/-- Python `v == k` for a string literal `k`: true exactly when `v` is that
string (no other modelled value compares equal to a `str`). -/
def PyVal.eqStr (v : PyVal) (k : String) : Bool :=
  match v with
  | .pystr s => s == k
  | _ => false

/-- `d.get(k)` on a Python dict modelled as an association list
(first binding wins; dicts built by the embedding never carry duplicate keys). -/
def pyDictGet (d : List (String × PyVal)) (k : String) : Option PyVal :=
  (d.find? (fun e => e.1 == k)).map (·.2)

/-- `k in d` key-membership test on a Python dict. -/
def pyDictHasKey (d : List (String × PyVal)) (k : String) : Bool :=
  d.any (fun e => e.1 == k)

/-- `d.get(k, default)`. -/
def pyDictGetD (d : List (String × PyVal)) (k : String) (dflt : PyVal) : PyVal :=
  (pyDictGet d k).getD dflt

/-- Python `v == k` lifted to `Option`: models comparing `d.get(k)` (which is
`None` when the key is absent) against a string literal. -/
def optEqStr (o : Option PyVal) (k : String) : Bool :=
  match o with
  | Option.some v => v.eqStr k
  | Option.none => false

/-- Python truthiness of `d.get(k)`: `None` (absent key) is falsy. -/
def optTruthy (o : Option PyVal) : Bool :=
  (o.getD PyVal.none).truthy

/-! ## `taco/core/tool_stack.py` — ToolStack -/

/-- One stack entry, as built by `ToolStack.push`:
`{'tool': tool_name, 'context': context or {}, 'timestamp': datetime.now().isoformat()}`. -/
structure StackFrame where
  tool : PyVal
  context : PyVal
  timestamp : String

/-- The `ToolStack` object state: the frame list (Python appends at the end, so
the top of the stack is the last list element), the saved original prompt and
the mutable depth limit. -/
structure ToolStack where
  stack : List StackFrame
  original_prompt : Option String
  max_stack_depth : Nat

/-- `ToolStack.__init__`: empty stack, no original prompt, `max_stack_depth = 20`. -/
def ToolStack.init : ToolStack :=
  { stack := [], original_prompt := Option.none, max_stack_depth := 20 }

/-- `ToolStack.push(tool_name, context=None)`: appends
`{'tool': tool_name, 'context': context or {}, 'timestamp': ...}`.
`context or {}` keeps a truthy context and replaces `None` / falsy values by `{}`. -/
def ToolStack.push (st : ToolStack) (tool_name : PyVal) (context : Option PyVal)
    (ts : String) : ToolStack :=
  let ctx := match context with
    | Option.none => PyVal.pydict []
    | Option.some c => if c.truthy then c else PyVal.pydict []
  { st with stack := st.stack ++ [{ tool := tool_name, context := ctx, timestamp := ts }] }

/-- `ToolStack.pop`: removes and returns the last frame; on an empty stack it
returns `None` and changes nothing. -/
def ToolStack.pop (st : ToolStack) : Option StackFrame × ToolStack :=
  if st.stack.isEmpty then (Option.none, st)
  else (st.stack.getLast?, { st with stack := st.stack.dropLast })

/-- `ToolStack.clear`: empties the stack and forgets the original prompt. -/
def ToolStack.clear (st : ToolStack) : ToolStack :=
  { st with stack := [], original_prompt := Option.none }

/-- `ToolStack.get_depth`. -/
def ToolStack.get_depth (st : ToolStack) : Nat :=
  st.stack.length

/-- `ToolStack.check_depth_limit`, with the interactive
`Prompt.ask("Continue for another 20 levels? [y/N]")` answer supplied as the
boolean `userApproves`.  Returns the updated state and the `True`/`False`
result: under the limit it is a no-op returning `True`; at or over the limit,
approval raises `max_stack_depth` by 20 and returns `True`, refusal clears the
stack and returns `False`. -/
def ToolStack.check_depth_limit (st : ToolStack) (userApproves : Bool) :
    ToolStack × Bool :=
  if st.get_depth ≥ st.max_stack_depth then
    if userApproves then
      ({ st with max_stack_depth := st.max_stack_depth + 20 }, true)
    else
      (st.clear, false)
  else
    (st, true)

/-- `ToolStack.process_tool_result(tool_name, result, success)`.
On failure the whole stack is cleared.  On success, for a dict result, in this
order: a `status == 'success'` result carrying an `instructions` key pushes an
initializing frame for `tool_name`; a truthy `next_tool` value pushes a frame
for it with the result's `context` (default `{}`); a `status == 'complete'`
result pops one frame.  Non-dict successful results leave the stack unchanged.
(The debug console printing guarded by `TACO_DEBUG_LEVEL` does not touch the
state and is not modelled.) -/
def ToolStack.process_tool_result (st : ToolStack) (tool_name : String)
    (result : PyVal) (success : Bool) (ts : String) : ToolStack :=
  if success = false then
    st.clear
  else
    match result with
    | PyVal.pydict d =>
      let st1 :=
        if optEqStr (pyDictGet d "status") "success" && pyDictHasKey d "instructions" then
          st.push (PyVal.pystr tool_name)
            (Option.some (PyVal.pydict [("status", PyVal.pystr "initializing")])) ts
        else st
      let next_tool := (pyDictGet d "next_tool").getD PyVal.none
      let st2 :=
        if next_tool.truthy then
          st1.push next_tool (Option.some (pyDictGetD d "context" (PyVal.pydict []))) ts
        else st1
      if optEqStr (pyDictGet d "status") "complete" then
        (st2.pop).2
      else st2
    | _ => st

/-! ### Claims about the ToolStack -/

/-- **C3.** For every prior stack contents, tool name and result value,
`process_tool_result` with `success == False` leaves the stack empty and the
original prompt cleared: a failure abandons the whole workflow. -/
theorem process_tool_result_failure_clears (st : ToolStack) (tool_name : String)
    (result : PyVal) (ts : String) :
    (st.process_tool_result tool_name result false ts).stack = [] ∧
      (st.process_tool_result tool_name result false ts).original_prompt = Option.none := by
  simp [ToolStack.process_tool_result, ToolStack.clear]

/-- **C8.** A successful dict result with `status == 'complete'` that carries
neither an `instructions` nor a `next_tool` key pops exactly one frame: the new
stack is `dropLast` of the old one, so on a non-empty stack the depth decreases
by exactly one and on an empty stack the call is a no-op (no underflow — and
the embedded function is total, so no exception). -/
theorem process_tool_result_complete_pops_one (st : ToolStack) (tool_name : String)
    (d : List (String × PyVal)) (ts : String)
    (hstatus : pyDictGet d "status" = Option.some (PyVal.pystr "complete"))
    (hinstr : pyDictHasKey d "instructions" = false)
    (hnext : pyDictGet d "next_tool" = Option.none) :
    (st.process_tool_result tool_name (PyVal.pydict d) true ts).stack = st.stack.dropLast ∧
      (st.stack ≠ [] →
        (st.process_tool_result tool_name (PyVal.pydict d) true ts).stack.length + 1 =
          st.stack.length) := by
  have e1 : optEqStr (pyDictGet d "status") "success" = false := by rw [hstatus]; rfl
  have e2 : optEqStr (pyDictGet d "status") "complete" = true := by rw [hstatus]; rfl
  have c1 : (optEqStr (pyDictGet d "status") "success" &&
      pyDictHasKey d "instructions") = false := by
    rw [e1]; rfl
  have hmain : (st.process_tool_result tool_name (PyVal.pydict d) true ts).stack =
      st.stack.dropLast := by
    simp only [ToolStack.process_tool_result]
    rw [hnext]
    simp only [c1, e2, Option.getD, PyVal.truthy, Bool.false_eq_true, if_false, if_true]
    rw [if_neg (by simp : ¬(true = false))]
    simp only [ToolStack.pop]
    split
    · rename_i h
      simp only [List.isEmpty_iff] at h
      simp [h]
    · rfl
  refine ⟨hmain, fun hne => ?_⟩
  rw [hmain, List.length_dropLast]
  have hlen : st.stack.length ≠ 0 := by
    simpa [List.length_eq_zero] using hne
  omega

/-- Witness for C8 at a concrete two-frame stack and the result
`{'status': 'complete'}`. -/
theorem process_tool_result_complete_pops_one_witness :
    (ToolStack.process_tool_result
        { stack := [{ tool := PyVal.pystr "a", context := PyVal.pydict [], timestamp := "t0" },
                    { tool := PyVal.pystr "b", context := PyVal.pydict [], timestamp := "t1" }],
          original_prompt := Option.some "orig", max_stack_depth := 20 }
        "b" (PyVal.pydict [("status", PyVal.pystr "complete")]) true "t2").stack =
      [{ tool := PyVal.pystr "a", context := PyVal.pydict [], timestamp := "t0" }] := by
  have h := process_tool_result_complete_pops_one
    { stack := [{ tool := PyVal.pystr "a", context := PyVal.pydict [], timestamp := "t0" },
                { tool := PyVal.pystr "b", context := PyVal.pydict [], timestamp := "t1" }],
      original_prompt := Option.some "orig", max_stack_depth := 20 }
    "b" [("status", PyVal.pystr "complete")] "t2" rfl rfl rfl
  rw [h.1]
  rfl

/-- A successful usage-instructions result (`{'status': 'success',
'instructions': ...}`): each `process_tool_result` call on it pushes one frame,
with no depth check and no user interaction. -/
def instructionsResult : PyVal :=
  PyVal.pydict [("status", PyVal.pystr "success"), ("instructions", PyVal.pystr "how to use")]

/-- **C2, counterexample.**  Twenty-one successful usage-instructions results
processed in one turn (exactly what `ChatSession.ask` does for a response whose
21 tool calls are all answered with usage instructions while the stack starts
empty) drive the stack to depth 21 while `max_stack_depth` is still 20:
`process_tool_result` pushes without any depth check, so the depth limit is
exceeded with no user-approved extension. -/
theorem tool_stack_exceeds_limit_without_approval :
    (((fun st : ToolStack => st.process_tool_result "t" instructionsResult true "ts")^[21]
        ToolStack.init).stack.length = 21 ∧
      ((fun st : ToolStack => st.process_tool_result "t" instructionsResult true "ts")^[21]
        ToolStack.init).max_stack_depth = 20) ∧ 21 > 20 := by
  constructor
  · constructor <;> rfl
  · decide

/-- **C2, amended.**  The depth bound does hold for the pushes that the
execution loop guards with `check_depth_limit`: starting from any state
satisfying `len(stack) ≤ max_stack_depth`, one `check_depth_limit` call
followed (when it returns `True`) by one `push` keeps
`len(stack) ≤ max_stack_depth`, where the limit was raised by 20 exactly when
the user approved; a `False` answer leaves an empty (cleared) stack; and a
`True` answer obtained without approval means the depth was strictly under the
limit. -/
theorem check_depth_limit_guarded_push_respects_limit
    (st : ToolStack) (approve : Bool) (tool ctx : PyVal) (ts : String)
    (hinv : st.stack.length ≤ st.max_stack_depth) :
    (((st.check_depth_limit approve).2 = true →
        (((st.check_depth_limit approve).1.push tool (Option.some ctx) ts).stack.length ≤
          (st.check_depth_limit approve).1.max_stack_depth)) ∧
      ((st.check_depth_limit approve).2 = false →
        (st.check_depth_limit approve).1.stack.length = 0)) ∧
      ((st.check_depth_limit approve).2 = true → approve = false →
        st.stack.length < st.max_stack_depth) := by
  unfold ToolStack.check_depth_limit
  by_cases hd : st.get_depth ≥ st.max_stack_depth
  · cases approve with
    | true =>
      simp only [hd, if_pos, if_true]
      unfold ToolStack.get_depth at hd
      refine ⟨⟨fun _ => ?_, fun h => by simp at h⟩, fun _ h => by simp at h⟩
      simp only [ToolStack.push, List.length_append, List.length_cons, List.length_nil]
      omega
    | false =>
      simp only [hd, if_pos, if_false]
      refine ⟨⟨fun h => by simp at h, fun _ => ?_⟩, fun h => by simp at h⟩
      simp [ToolStack.clear]
  · simp only [hd, if_neg, if_false]
    unfold ToolStack.get_depth at hd
    refine ⟨⟨fun _ => ?_, fun h => by simp at h⟩, fun _ _ => by omega⟩
    simp only [ToolStack.push, List.length_append, List.length_cons, List.length_nil]
    omega

/-- Witness for the amended C2 at the initial state with a declining user:
a guarded push from the empty stack stays within the limit. -/
theorem check_depth_limit_guarded_push_respects_limit_witness :
    ((ToolStack.init.check_depth_limit false).1.push (PyVal.pystr "t")
        (Option.some (PyVal.pydict [])) "ts").stack.length ≤
      (ToolStack.init.check_depth_limit false).1.max_stack_depth :=
  ((check_depth_limit_guarded_push_respects_limit ToolStack.init false (PyVal.pystr "t")
      (PyVal.pydict []) "ts" (by decide)).1.1) (by decide)

/-! ## Python string primitives used by the embedded code -/

/-- Python whitespace (`str.isspace`, also what `str.strip()` removes and what
`\s` matches for `str` patterns): ASCII whitespace, the C1 separator controls,
NEL, NBSP and the Unicode space characters. -/
def pyIsSpace (c : Char) : Bool :=
  let n := c.toNat
  n == 32 || (9 ≤ n && n ≤ 13) || (28 ≤ n && n ≤ 31) || n == 0x85 || n == 0xa0 ||
    n == 0x1680 || (0x2000 ≤ n && n ≤ 0x200a) || n == 0x2028 || n == 0x2029 ||
    n == 0x202f || n == 0x205f || n == 0x3000

/-- Drop the leading and trailing characters satisfying `p` from a character
list (the core of Python `str.strip`). -/
def stripWhile (p : Char → Bool) (l : List Char) : List Char :=
  ((l.dropWhile p).reverse.dropWhile p).reverse

/-- Python `s.strip()` (no argument: strips whitespace). -/
def pyStrip (s : String) : String :=
  ⟨stripWhile pyIsSpace s.data⟩

/-- Python `s.strip(chars)`: strips any of the given characters from both ends
(used by `convert_argument` as `value.strip('()')`). -/
def pyStripChars (chars : List Char) (s : String) : String :=
  ⟨stripWhile (fun c => chars.contains c) s.data⟩

/-- Index of the first occurrence of `pat` in `l` (`str.find` on character
lists); `Option.none` when absent. -/
def listFind (pat : List Char) : List Char → Option Nat
  | [] => if pat.isEmpty then Option.some 0 else Option.none
  | c :: cs =>
    if pat.isPrefixOf (c :: cs) then Option.some 0
    else (listFind pat cs).map (· + 1)

/-- Python `pat in s` substring test. -/
def pyContains (s pat : String) : Bool :=
  (listFind pat.data s.data).isSome

/-- Python `s.replace(old, new)` on character lists, for a non-empty `old`:
left-to-right, non-overlapping.  The fuel is the list length; each step
consumes at least one character, so it never runs out.  (Python's behaviour for
`old = ""` — inserting `new` at every boundary — is modelled as the identity;
every call site in the embedded code passes a non-empty `old`.) -/
def listReplaceAux (old new : List Char) : Nat → List Char → List Char
  | 0, l => l
  | Nat.succ fuel, l =>
    match l with
    | [] => []
    | c :: cs =>
      if old.isPrefixOf (c :: cs) then
        new ++ listReplaceAux old new fuel ((c :: cs).drop old.length)
      else
        c :: listReplaceAux old new fuel cs

def listReplace (old new : List Char) (l : List Char) : List Char :=
  if old.isEmpty then l else listReplaceAux old new l.length l

/-- Python `s.replace(old, new)`. -/
def pyReplace (s old new : String) : String :=
  ⟨listReplace old.data new.data s.data⟩

/-! ## `taco/core/message_handler.py` — parsed tool calls and stripping -/

/-- One parsed tool call as appended by `MessageHandler.parse_tool_calls`:
`{'tool_name': ..., 'parameters': ..., 'original_text': match.group(0)}`. -/
structure ParsedToolCall where
  tool_name : PyVal
  parameters : PyVal
  original_text : String

/-- `MessageHandler.strip_tool_calls_from_response(response, tool_calls)`:
replaces each call's `original_text` by the empty string, then
`result.strip()`. -/
def strip_tool_calls_from_response (response : String)
    (tool_calls : List ParsedToolCall) : String :=
  pyStrip (tool_calls.foldl (fun r call => pyReplace r call.original_text "") response)

/-! ## `taco/core/chat.py` — the second model call in `ChatSession.ask` -/

/-- A `{role, content}` chat message. -/
structure ChatMessage where
  role : String
  content : String
  deriving DecidableEq, Repr

/-- The follow-up context message built at `chat.py` lines 626–642: the
usage-instructions re-anchoring variant when the results contained usage
instructions and a truthy original prompt is recorded, the plain
tool-narration variant otherwise. -/
def build_tool_context (got_usage_instructions : Bool) (original_prompt : Option String)
    (first_tool : String) (tool_results_text : String) : String :=
  let origTruthy := match original_prompt with
    | Option.some p => decide (p ≠ "")
    | Option.none => false
  if got_usage_instructions && origTruthy then
    "The tool has provided its usage instructions. \n\nNow you should use the " ++
      first_tool ++ " tool to handle the user's original request: \"" ++
      (original_prompt.getD "") ++
      "\"\n\nFollow the usage instructions you just received.\n\nTool results:\n" ++
      tool_results_text
  else
    "The following tool was executed:\n" ++ tool_results_text ++
      "\n\nPlease provide a natural language response explaining these results to the user."

/-- The `interpretation_messages` list built at `chat.py` lines 647–656:
a system message naming the first result's tool, the user's original question,
and the tool-context system message. -/
def interpretation_messages (question : String) (tool_context : String)
    (first_tool : String) : List ChatMessage :=
  [{ role := "system",
     content := "Use the " ++ first_tool ++
       " tool with the correct parameters to generate the code. Follow the usage instructions exactly." },
   { role := "user", content := question },
   { role := "system", content := tool_context }]

/-- The message list actually passed to the second model call at `chat.py`
line 658: `interpretation_response = self._communicate_with_ollama(messages,
"First Request")` — the original first-call list `messages`, not the
`interpretation_messages` list that lines 647–656 just built. -/
def ask_second_call_messages (_question : String) (messages : List ChatMessage)
    (_tool_context : String) (_first_tool : String) : List ChatMessage :=
  messages

/-! ## `taco/tools/builtin/basic.py` — convert_temperature -/

/-- The `unit_map` normalization dict of `convert_temperature`. -/
def unit_map : List (String × String) :=
  [("CELSIUS", "C"), ("FAHRENHEIT", "F"), ("KELVIN", "K"),
   ("C", "C"), ("F", "F"), ("K", "K")]

/-- Python `u.upper()` (character-wise ASCII uppercasing; the unit strings this
is applied to are ASCII, where Python's Unicode uppercasing agrees). -/
def pyUpper (u : String) : String :=
  ⟨u.data.map Char.toUpper⟩

/-- `unit_map.get(u.upper())`. -/
def unit_map_get (u : String) : Option String :=
  ((unit_map.find? (fun e => e.1 == pyUpper u)).map (·.2))

/-- The `conversions` dict of `convert_temperature` (Python floats as exact
rationals; every theorem below evaluates it only where binary64 is exact). -/
def conversions_get (key : String) : Option (ℚ → ℚ) :=
  if key == "C_to_F" then Option.some (fun x => x * 9 / 5 + 32)
  else if key == "F_to_C" then Option.some (fun x => (x - 32) * 5 / 9)
  else if key == "C_to_K" then Option.some (fun x => x + 273.15)
  else if key == "K_to_C" then Option.some (fun x => x - 273.15)
  else if key == "F_to_K" then Option.some (fun x => (x - 32) * 5 / 9 + 273.15)
  else if key == "K_to_F" then Option.some (fun x => (x - 273.15) * 9 / 5 + 32)
  else Option.none

/-- Python `round(x, 2)`: round `100 x` to the nearest integer, ties to even,
then divide by 100 (on the exact-rational model of floats). -/
def pyRound2 (x : ℚ) : ℚ :=
  let y := x * 100
  let m := ⌊y⌋
  let f := y - (m : ℚ)
  let r : ℤ :=
    if f < 1 / 2 then m
    else if f > 1 / 2 then m + 1
    else if m % 2 = 0 then m else m + 1
  (r : ℚ) / 100

/-- `convert_temperature(value, from_unit, to_unit)` from
`taco/tools/builtin/basic.py`: normalize units through `unit_map`, raise
`ValueError` on an unknown unit, convert via the `conversions` table rounded to
2 decimals, and fall back to `round(value, 2)` for an identity conversion. -/
def convert_temperature (value : ℚ) (from_unit to_unit : String) : Except String ℚ :=
  match unit_map_get from_unit, unit_map_get to_unit with
  | Option.some f, Option.some t =>
    let key := f ++ "_to_" ++ t
    match conversions_get key with
    | Option.some conv => Except.ok (pyRound2 (conv value))
    | Option.none =>
      if f == t then Except.ok (pyRound2 value)
      else Except.error "ValueError: Unsupported conversion"
  | _, _ => Except.error "ValueError: Invalid temperature unit"

/-! ### Claims C6, C1, C9 -/

/-- **C6, counterexample.**  `strip_tool_calls_from_response` with an empty
call list is not the identity: the final `result.strip()` removes surrounding
whitespace, so `" hi "` comes back as `"hi"`. -/
theorem strip_empty_calls_not_identity :
    strip_tool_calls_from_response " hi " [] ≠ " hi " ∧
      strip_tool_calls_from_response " hi " [] = "hi" := by
  constructor
  · decide
  · rfl

/-- **C6, amended.**  Stripping an empty call list returns the input with its
leading and trailing whitespace removed (`str.strip`); in particular it returns
the input unchanged exactly when the input has no leading or trailing
whitespace. -/
theorem strip_empty_calls_strips (s : String) :
    strip_tool_calls_from_response s [] = pyStrip s ∧
      (s.data.dropWhile pyIsSpace = s.data ∧
          s.data.reverse.dropWhile pyIsSpace = s.data.reverse →
        strip_tool_calls_from_response s [] = s) := by
  refine ⟨rfl, fun h => ?_⟩
  show pyStrip (List.foldl _ s []) = s
  simp only [List.foldl_nil]
  unfold pyStrip stripWhile
  rw [h.1, h.2, List.reverse_reverse]

/-- Witness for the amended C6 at `"hi"`, which has no surrounding whitespace. -/
theorem strip_empty_calls_strips_witness :
    strip_tool_calls_from_response "hi" [] = "hi" :=
  (strip_empty_calls_strips "hi").2 (by decide)

/-- **C1.**  At `chat.py` line 658 the second model call is issued with the
original first-call message list `messages`, not with the freshly constructed
`interpretation_messages` (built at lines 647–656 and never used): the code
sends the stale context, which the specification itself calls a defect. -/
theorem ask_second_call_gets_original_list :
    (∀ (question : String) (messages : List ChatMessage) (tool_context first_tool : String),
        ask_second_call_messages question messages tool_context first_tool = messages) ∧
      ask_second_call_messages "What is 2+2?"
          [{ role := "system", content := "sys" },
           { role := "user", content := "Select the best tool to handle this request: What is 2+2?" }]
          (build_tool_context true (Option.some "What is 2+2?") "calculate" "results")
          "calculate" ≠
        interpretation_messages "What is 2+2?"
          (build_tool_context true (Option.some "What is 2+2?") "calculate" "results")
          "calculate" := by
  constructor
  · intro q m tc ft
    rfl
  · decide

/-- **C9.**  `convert_temperature(32, "F", "C")` returns `0.0`,
`convert_temperature(0, "C", "C")` returns `0.0`, and the identity case applies
the same `round(…, 2)` policy as cross-unit conversions (for every value, the
C→C conversion returns `round(value, 2)`). -/
theorem convert_temperature_spec_values :
    convert_temperature 32 "F" "C" = Except.ok 0 ∧
      convert_temperature 0 "C" "C" = Except.ok 0 ∧
      ∀ v : ℚ, convert_temperature v "C" "C" = Except.ok (pyRound2 v) := by
  refine ⟨?_, ?_, fun v => ?_⟩
  · have h1 : unit_map_get "F" = Option.some "F" := by decide
    have h2 : unit_map_get "C" = Option.some "C" := by decide
    have hk : ("F" ++ "_to_" ++ "C") = "F_to_C" := by decide
    have hc : conversions_get "F_to_C" = Option.some (fun x => (x - 32) * 5 / 9) := rfl
    simp only [convert_temperature, h1, h2, hk, hc]
    norm_num [pyRound2]
  · have h2 : unit_map_get "C" = Option.some "C" := by decide
    have hk : ("C" ++ "_to_" ++ "C") = "C_to_C" := by decide
    have hc : conversions_get "C_to_C" = Option.none := rfl
    simp only [convert_temperature, h2, hk, hc]
    norm_num [pyRound2]
  · have h2 : unit_map_get "C" = Option.some "C" := by decide
    have hk : ("C" ++ "_to_" ++ "C") = "C_to_C" := by decide
    have hc : conversions_get "C_to_C" = Option.none := rfl
    simp only [convert_temperature, h2, hk, hc]
    norm_num

/-! ## `taco/tools/registry.py` — `Tool.convert_argument` -/

/-- Python `s.startswith(pre)`. -/
def pyStartsWith (s pre : String) : Bool :=
  pre.data.isPrefixOf s.data

/-- Python `s.endswith(suf)`. -/
def pyEndsWith (s suf : String) : Bool :=
  suf.data.reverse.isPrefixOf s.data.reverse

/-- Python `s.lower()` (character-wise ASCII lowercasing; agrees with Python on
the ASCII strings compared against `('true', '1', 'yes', 'y')`). -/
def pyLower (s : String) : String :=
  ⟨s.data.map Char.toLower⟩

/-- Python `s.split(',')`: split at every comma, keeping empty parts. -/
def splitOnComma : List Char → List (List Char)
  | [] => [[]]
  | c :: cs =>
    if c == ',' then [] :: splitOnComma cs
    else
      match splitOnComma cs with
      | h :: t => (c :: h) :: t
      | [] => [[c]]

/-- Value of a non-empty ASCII digit run, accumulating left to right. -/
def digitsValAux (acc : Nat) : List Char → Option Nat
  | [] => Option.some acc
  | c :: cs =>
    if c.isDigit then digitsValAux (10 * acc + (c.toNat - 48)) cs
    else if c == '_' then
      match cs with
      | d :: ds => if d.isDigit then digitsValAux (10 * acc + (d.toNat - 48)) ds
                   else Option.none
      | [] => Option.none
    else Option.none

/-- Digit run with Python's underscore rule (single underscores between
digits); fails on anything else. -/
def digitsVal : List Char → Option Nat
  | [] => Option.none
  | c :: cs => if c.isDigit then digitsValAux (c.toNat - 48) cs else Option.none

/-- Python `int(s)` on a string: surrounding whitespace, an optional sign, then
digits with single underscores between digits — implemented for ASCII digits.
Python's `int()` additionally accepts non-ASCII Unicode decimal digits, and the
tuple branch can feed this function arbitrary user substrings, so every
registry theorem below restricts string inputs to ASCII (`isAsciiStr`), where
this implementation agrees exactly with Python. -/
def pyIntOfString (s : String) : Option Int :=
  let l := stripWhile pyIsSpace s.data
  match l with
  | '+' :: rest => (digitsVal rest).map (fun n => (n : Int))
  | '-' :: rest => (digitsVal rest).map (fun n => -(n : Int))
  | _ => (digitsVal l).map (fun n => (n : Int))

/-- Value of a digit run as a natural number (no validation; callers check). -/
def digitsNat (l : List Char) : Nat :=
  l.foldl (fun a c => 10 * a + (c.toNat - 48)) 0

/-- Python `float(s)` restricted to the strings `convert_argument` feeds it:
the call site filters the input to ASCII digits, `'.'` and `'-'`, so the
grammar is an optional sign, then `digits`, `digits.digits?` or `.digits`
(exponents, underscores, `inf`/`nan` cannot occur in a filtered string). -/
def pyFloatOfCleaned (s : String) : Option ℚ :=
  let l := s.data
  let signed : Bool × List Char :=
    match l with
    | '-' :: rest => (true, rest)
    | rest => (false, rest)
  let neg := signed.1
  let body := signed.2
  let d1 := body.takeWhile Char.isDigit
  let rest := body.dropWhile Char.isDigit
  let mag : Option ℚ :=
    match rest with
    | [] => if d1.isEmpty then Option.none else Option.some ((digitsNat d1 : ℚ))
    | '.' :: rest2 =>
      let d2 := rest2.takeWhile Char.isDigit
      let rest3 := rest2.dropWhile Char.isDigit
      if !rest3.isEmpty then Option.none
      else if d1.isEmpty && d2.isEmpty then Option.none
      else Option.some ((digitsNat d1 : ℚ) + (digitsNat d2 : ℚ) / (10 ^ d2.length : ℚ))
    | _ => Option.none
  mag.map (fun q => if neg then -q else q)

/-- The `(1, 2, 3)`-shaped tuple conversion attempted first by
`convert_argument`: for a string starting with `'('` and ending with `')'`,
strip all leading/trailing parentheses, split on commas, strip each part and
parse it with `int()`; any failure falls through (`except ValueError: pass`).
Like `pyIntOfString`, faithful on ASCII strings: Python would also parse
Unicode-decimal-digit tuples, which the registry theorems exclude via
`isAsciiStr`. -/
def tupleParse (s : String) : Option (List Int) :=
  if pyStartsWith s "(" && pyEndsWith s ")" then
    (splitOnComma (pyStripChars ['(', ')'] s).data).mapM
      (fun x => pyIntOfString (pyStrip ⟨x⟩))
  else Option.none

/-- The declared target types that occur as `type_hints` values in the
repository's tools: `bool`, `int`, `float`, `str`, un-annotated (`Any`), and
subscripted `typing` generics such as `List[str]` / `Dict[str, Any]`
(`generic`), which are not callable — `List[str](v)` raises `TypeError`
immediately, which the final `except (TypeError, ValueError)` turns into
returning the raw value. -/
inductive PyType where
  | pybool
  | pyint
  | pyfloat
  | pystr
  | anyT
  | generic
  deriving DecidableEq, Repr

/-- The smallest integer magnitude whose binary64 conversion overflows:
`2^1024 - 2^970`, the round-half-even midpoint above the largest finite double
(`2^1024 - 2^971`), which rounds up to `2^1024`.  `float(n)` raises
`OverflowError` exactly for `|n| ≥` this bound, and `float(<decimal string>)`
overflows to `inf` there. -/
def floatOverflowBound : Nat := 2 ^ 1024 - 2 ^ 970

/-- Is every character of the string ASCII?  The registry theorems restrict
string values to ASCII, where the embedding's character-level digit, space and
case primitives agree exactly with Python's Unicode-aware ones
(`str.isdigit`, `int()` digits, `str.strip`, `str.lower`). -/
def isAsciiStr (s : String) : Bool :=
  s.data.all (fun c => c.toNat < 128)

/-- Python `int(value)` on the non-string values that can reach
`convert_argument`'s `return target_type(value)` (floats truncate toward zero;
containers raise `TypeError`; `inf`/`nan` raise `OverflowError`/`ValueError`). -/
def pyIntCast : PyVal → Except String PyVal
  | PyVal.pybool b => Except.ok (PyVal.pyint (if b then 1 else 0))
  | PyVal.pyint n => Except.ok (PyVal.pyint n)
  | PyVal.pyfloat q => Except.ok (PyVal.pyint (q.num.tdiv (q.den : Int)))
  | PyVal.pyinf _ => Except.error "OverflowError: cannot convert float infinity to integer"
  | PyVal.pynan => Except.error "ValueError: cannot convert float NaN to integer"
  | PyVal.pystr s =>
    match pyIntOfString s with
    | Option.some n => Except.ok (PyVal.pyint n)
    | Option.none => Except.error "ValueError: invalid literal for int()"
  | PyVal.none => Except.error "TypeError: int() argument must not be None"
  | _ => Except.error "TypeError: int() argument must be a string or a number"

/-- Python `float(value)` on the non-string values that can reach
`convert_argument`'s `return target_type(value)`: `float(int)` raises
`OverflowError` when the integer's magnitude reaches `floatOverflowBound`
(e.g. `float(10 ** 400)`); finite results keep their exact value under the
embedding's exact-rational float convention. -/
def pyFloatCast : PyVal → Except String PyVal
  | PyVal.pybool b => Except.ok (PyVal.pyfloat (if b then 1 else 0))
  | PyVal.pyint n =>
    if n.natAbs < floatOverflowBound then Except.ok (PyVal.pyfloat (n : ℚ))
    else Except.error "OverflowError: int too large to convert to float"
  | PyVal.pyfloat q => Except.ok (PyVal.pyfloat q)
  | PyVal.pyinf b => Except.ok (PyVal.pyinf b)
  | PyVal.pynan => Except.ok PyVal.pynan
  | PyVal.pystr s =>
    match pyFloatOfCleaned s with
    | Option.some q => Except.ok (PyVal.pyfloat q)
    | Option.none => Except.error "ValueError: could not convert string to float"
  | PyVal.none => Except.error "TypeError: float() argument must not be None"
  | _ => Except.error "TypeError: float() argument must be a string or a number"

/-- The numeric (`target_type in (int, float)`) branch of `convert_argument`
for non-sentinel strings and non-string values.  The cleaning filter uses the
ASCII `Char.isDigit` where registry.py line 154 uses `str.isdigit()`, which
also keeps non-ASCII digit-property characters (e.g. superscript two, which
Python's filter keeps and whose `int()` then rejects with `ValueError`); the
registry theorems therefore restrict string inputs to ASCII, where the two
filters coincide. -/
def numericConvert (target_type : PyType) (value : PyVal) : Except String PyVal :=
  match value with
  | PyVal.pystr s =>
    if s == "" || s == "none" || s == "default" then Except.ok value
    else
      let cleaned : String := ⟨s.data.filter (fun c => c.isDigit || c == '.' || c == '-')⟩
      if cleaned ≠ "" then
        match target_type with
        | PyType.pyint =>
          match pyIntOfString cleaned with
          | Option.some n => Except.ok (PyVal.pyint n)
          | Option.none => Except.error "ValueError: invalid literal for int()"
        | _ =>
          match pyFloatOfCleaned cleaned with
          | Option.some q => Except.ok (PyVal.pyfloat q)
          | Option.none => Except.error "ValueError: could not convert string to float"
      else Except.ok value
  | _ =>
    match target_type with
    | PyType.pyint => pyIntCast value
    | _ => pyFloatCast value

/-- The body of `Tool.convert_argument` (registry.py lines 132–167) for a given
resolved target type: pass empty strings and `None` through, attempt the tuple
conversion on `(…)`-shaped strings, then dispatch on the declared type —
`bool` via the truthy-words list or `bool(value)`, numeric via cleaning and
parsing, `str`/`Any` pass-through, and for a non-callable `typing` generic the
`try: return target_type(value)` raises `TypeError`, caught to return the raw
value. -/
def convertByType (target_type : PyType) (value : PyVal) : Except String PyVal :=
  if value.eqStr "" || (match value with | PyVal.none => true | _ => false) then
    Except.ok value
  else
    match (match value with
           | PyVal.pystr s => tupleParse s
           | _ => Option.none) with
    | Option.some nums => Except.ok (PyVal.pytuple nums)
    | Option.none =>
      match target_type with
      | PyType.pybool =>
        match value with
        | PyVal.pystr s => Except.ok (PyVal.pybool (["true", "1", "yes", "y"].contains (pyLower s)))
        | _ => Except.ok (PyVal.pybool value.truthy)
      | PyType.pyint => numericConvert PyType.pyint value
      | PyType.pyfloat => numericConvert PyType.pyfloat value
      | PyType.pystr => Except.ok value
      | PyType.anyT => Except.ok value
      | PyType.generic => Except.ok value

/-- A registered tool, reduced to what `convert_argument` reads: the resolved
`type_hints` mapping (`get_type_hints(func)`). -/
structure Tool where
  type_hints : List (String × PyType)

/-- `Tool.convert_argument(name, value)`: resolve the declared type with
`self.type_hints.get(name, Any)` and convert. -/
def Tool.convert_argument (tool : Tool) (name : String) (value : PyVal) :
    Except String PyVal :=
  let target_type :=
    ((tool.type_hints.find? (fun e => e.1 == name)).map (·.2)).getD PyType.anyT
  convertByType target_type value

/-- Does the parenthesized-tuple conversion fire on this value? -/
def tupleBranchFires (v : PyVal) : Bool :=
  match v with
  | PyVal.pystr s => (tupleParse s).isSome
  | _ => false


/-! ### Claims C4 and C5 -/

/-- **C4, counterexample.**  `convert_argument` does raise: with a declared
`int` type and the raw value `"1.2"`, the cleaned numeric string `"1.2"` is
non-empty, so the code runs `int("1.2")`, which raises `ValueError` outside
any `try` — the raw value is not returned. -/
theorem convert_argument_raises_on_decimal_int :
    Tool.convert_argument { type_hints := [("years", PyType.pyint)] } "years"
        (PyVal.pystr "1.2") = Except.error "ValueError: invalid literal for int()" := rfl

set_option maxRecDepth 8192 in
/-- **C4, amended.**  `convert_argument` resolves the declared type with
`type_hints.get(name, Any)`; it never raises when the declared type is `bool`,
`str`, `Any` or a non-callable `typing` generic, nor for `bool` or `float` raw
values under any declared type, nor for `int` raw values except under a
declared `float` type with magnitude at least `floatOverflowBound` (where
`float(value)` raises `OverflowError`); and with a declared numeric type, an
ASCII string whose cleaned form (digits, `.`, `-`) is empty is returned
unchanged.  (When the cleaned string is non-empty but unparsable for the
target type — or the value is a container or an IEEE special under `int` — the
conversion raises instead of returning the raw value, as the counterexample
shows; non-ASCII strings are outside the embedding's character tables, e.g.
Python keeps a superscript-two under `str.isdigit()` and `int()` then raises.) -/
theorem convert_argument_error_containment :
    (∀ (tool : Tool) (name : String) (v : PyVal),
        Tool.convert_argument tool name v =
          convertByType
            (((tool.type_hints.find? (fun e => e.1 == name)).map (·.2)).getD PyType.anyT) v) ∧
      (∀ (t : PyType) (v : PyVal), t ≠ PyType.pyint → t ≠ PyType.pyfloat →
        (convertByType t v).isOk = true) ∧
      (∀ (t : PyType) (n : Int), t ≠ PyType.pyfloat →
        (convertByType t (PyVal.pyint n)).isOk = true) ∧
      (∀ n : Int, n.natAbs < floatOverflowBound →
        (convertByType PyType.pyfloat (PyVal.pyint n)).isOk = true) ∧
      (∀ (t : PyType) (b : Bool), (convertByType t (PyVal.pybool b)).isOk = true) ∧
      (∀ (t : PyType) (q : ℚ), (convertByType t (PyVal.pyfloat q)).isOk = true) ∧
      (∀ (t : PyType) (s : String), (t = PyType.pyint ∨ t = PyType.pyfloat) →
        isAsciiStr s = true →
        tupleParse s = Option.none →
        s ≠ "" → s ≠ "none" → s ≠ "default" →
        s.data.filter (fun c => c.isDigit || c == '.' || c == '-') = [] →
        convertByType t (PyVal.pystr s) = Except.ok (PyVal.pystr s)) := by
  refine ⟨fun tool name v => rfl, ?_, ?_, ?_, ?_, ?_, ?_⟩
  · intro t v h1 h2
    unfold convertByType
    split
    · rfl
    · split
      · rfl
      · cases t with
        | pybool => cases v <;> rfl
        | pyint => exact absurd rfl h1
        | pyfloat => exact absurd rfl h2
        | pystr => rfl
        | anyT => rfl
        | generic => rfl
  · intro t n ht
    cases t <;> first
      | exact absurd rfl ht
      | rfl
  · intro n h
    have e : convertByType PyType.pyfloat (PyVal.pyint n) = pyFloatCast (PyVal.pyint n) := rfl
    rw [e]
    simp only [pyFloatCast]
    rw [if_pos h]
    rfl
  · intro t b
    cases t <;> rfl
  · intro t q
    cases t <;> rfl
  · intro t s ht _hascii htup hne hns hnd hcl
    have hbe : (s == "") = false := by simp [hne]
    have hbn : (s == "none") = false := by simp [hns]
    have hbd : (s == "default") = false := by simp [hnd]
    rcases ht with rfl | rfl <;>
    · unfold convertByType
      simp only [PyVal.eqStr, hbe, Bool.false_or, Bool.or_false, htup]
      simp only [numericConvert, hbe, hbn, hbd, Bool.false_or, Bool.or_false, hcl]
      simp

/-- Witness for the amended C4: a declared-`int` argument whose raw value
`"abc"` cleans to the empty string is passed through unchanged. -/
theorem convert_argument_error_containment_witness :
    convertByType PyType.pyint (PyVal.pystr "abc") = Except.ok (PyVal.pystr "abc") :=
  convert_argument_error_containment.2.2.2.2.2.2 PyType.pyint "abc" (Or.inl rfl) rfl rfl
    (by decide) (by decide) (by decide) rfl

/-- **C5, counterexample.**  `convert_argument` is not idempotent: under a
declared `bool` type, `"(1, 2)"` first converts through the parenthesized-tuple
branch to the tuple `(1, 2)`, and converting that tuple again lands in
`bool(value)`, yielding `True ≠ (1, 2)`.  (Under a declared `int` type the
second application raises `TypeError` instead.) -/
theorem convert_argument_tuple_not_idempotent :
    Tool.convert_argument { type_hints := [("size", PyType.pybool)] } "size"
        (PyVal.pystr "(1, 2)") = Except.ok (PyVal.pytuple [1, 2]) ∧
      Tool.convert_argument { type_hints := [("size", PyType.pybool)] } "size"
        (PyVal.pytuple [1, 2]) = Except.ok (PyVal.pybool true) ∧
      PyVal.pybool true ≠ PyVal.pytuple [1, 2] :=
  ⟨rfl, rfl, fun h => PyVal.noConfusion h⟩

/-- Reduction of `convertByType` on a non-empty string: the tuple branch is
consulted first, then the declared-type dispatch. -/
theorem convertByType_str (t : PyType) (s : String) (hne : (s == "") = false) :
    convertByType t (PyVal.pystr s) =
      match tupleParse s with
      | Option.some nums => Except.ok (PyVal.pytuple nums)
      | Option.none =>
        match t with
        | PyType.pybool =>
          Except.ok (PyVal.pybool (["true", "1", "yes", "y"].contains (pyLower s)))
        | PyType.pyint => numericConvert PyType.pyint (PyVal.pystr s)
        | PyType.pyfloat => numericConvert PyType.pyfloat (PyVal.pystr s)
        | PyType.pystr => Except.ok (PyVal.pystr s)
        | PyType.anyT => Except.ok (PyVal.pystr s)
        | PyType.generic => Except.ok (PyVal.pystr s) := by
  unfold convertByType
  split
  · rename_i hcond
    rw [show PyVal.eqStr (PyVal.pystr s) "" = (s == "") from rfl, hne] at hcond
    simp at hcond
  · rfl

set_option maxRecDepth 8192 in
/-- **C5, amended.**  `convert_argument` is idempotent on every successful
conversion except those produced by the parenthesized-tuple branch under a
declared `bool`/`int`/`float` type: whenever `convertByType t v` succeeds with
`r`, any string value involved is ASCII (where the embedding's digit tables
coincide with Python's — Python additionally parses Unicode-decimal tuples
such as an Arabic-Indic digit in parentheses, which fire the real tuple
branch), and either the tuple branch did not fire on `v` or the declared type
is `str`, `Any` or a generic, converting `r` again returns `r`. -/
theorem convert_argument_idempotent_off_tuple_branch (t : PyType) (v r : PyVal)
    (hok : convertByType t v = Except.ok r)
    (_hascii : match v with | PyVal.pystr s => isAsciiStr s = true | _ => True)
    (hside : tupleBranchFires v = false ∨
      t = PyType.pystr ∨ t = PyType.anyT ∨ t = PyType.generic) :
    convertByType t r = Except.ok r := by
  cases v with
  | pystr s =>
    by_cases hempty : s = ""
    · subst hempty
      have h := Except.ok.inj hok
      subst h
      rfl
    · have hbe : (s == "") = false := beq_eq_false_iff_ne.mpr hempty
      rw [convertByType_str t s hbe] at hok
      rcases htp : tupleParse s with _ | nums
      · rw [htp] at hok
        cases t with
        | pybool =>
          have h := Except.ok.inj hok
          subst h
          rfl
        | pystr =>
          have h := Except.ok.inj hok
          subst h
          rw [convertByType_str PyType.pystr s hbe, htp]
        | anyT =>
          have h := Except.ok.inj hok
          subst h
          rw [convertByType_str PyType.anyT s hbe, htp]
        | generic =>
          have h := Except.ok.inj hok
          subst h
          rw [convertByType_str PyType.generic s hbe, htp]
        | pyint =>
          simp only [numericConvert] at hok
          by_cases hs : (s == "" || s == "none" || s == "default") = true
          · rw [if_pos hs] at hok
            have h := Except.ok.inj hok
            subst h
            rw [convertByType_str PyType.pyint s hbe, htp]
            show numericConvert PyType.pyint (PyVal.pystr s) = _
            simp only [numericConvert]
            rw [if_pos hs]
          · rw [if_neg hs] at hok
            by_cases hcl : (⟨s.data.filter (fun c => c.isDigit || c == '.' || c == '-')⟩ : String) ≠ ""
            · rw [if_pos hcl] at hok
              rcases hpi : pyIntOfString ⟨s.data.filter (fun c => c.isDigit || c == '.' || c == '-')⟩
                with _ | n
              · rw [hpi] at hok
                exact Except.noConfusion hok
              · rw [hpi] at hok
                have h := Except.ok.inj hok
                subst h
                rfl
            · rw [if_neg hcl] at hok
              have h := Except.ok.inj hok
              subst h
              rw [convertByType_str PyType.pyint s hbe, htp]
              show numericConvert PyType.pyint (PyVal.pystr s) = _
              simp only [numericConvert]
              rw [if_neg hs, if_neg hcl]
        | pyfloat =>
          simp only [numericConvert] at hok
          by_cases hs : (s == "" || s == "none" || s == "default") = true
          · rw [if_pos hs] at hok
            have h := Except.ok.inj hok
            subst h
            rw [convertByType_str PyType.pyfloat s hbe, htp]
            show numericConvert PyType.pyfloat (PyVal.pystr s) = _
            simp only [numericConvert]
            rw [if_pos hs]
          · rw [if_neg hs] at hok
            by_cases hcl : (⟨s.data.filter (fun c => c.isDigit || c == '.' || c == '-')⟩ : String) ≠ ""
            · rw [if_pos hcl] at hok
              rcases hpf : pyFloatOfCleaned ⟨s.data.filter (fun c => c.isDigit || c == '.' || c == '-')⟩
                with _ | q
              · rw [hpf] at hok
                exact Except.noConfusion hok
              · rw [hpf] at hok
                have h := Except.ok.inj hok
                subst h
                rfl
            · rw [if_neg hcl] at hok
              have h := Except.ok.inj hok
              subst h
              rw [convertByType_str PyType.pyfloat s hbe, htp]
              show numericConvert PyType.pyfloat (PyVal.pystr s) = _
              simp only [numericConvert]
              rw [if_neg hs, if_neg hcl]
      · rw [htp] at hok
        have hfires : tupleBranchFires (PyVal.pystr s) = true := by
          simp [tupleBranchFires, htp]
        have ht3 : t = PyType.pystr ∨ t = PyType.anyT ∨ t = PyType.generic := by
          rcases hside with h | h
          · rw [hfires] at h
            cases h
          · exact h
        have h := Except.ok.inj hok
        subst h
        rcases ht3 with rfl | rfl | rfl <;> rfl
  | none =>
    have h := Except.ok.inj hok
    subst h
    rfl
  | pybool b =>
    cases t <;> first
      | exact Except.noConfusion hok
      | (have h := Except.ok.inj hok; subst h; rfl)
  | pyint n =>
    by_cases hf : t = PyType.pyfloat
    · subst hf
      have e : convertByType PyType.pyfloat (PyVal.pyint n) = pyFloatCast (PyVal.pyint n) := rfl
      rw [e] at hok
      simp only [pyFloatCast] at hok
      by_cases hb : n.natAbs < floatOverflowBound
      · rw [if_pos hb] at hok
        have h := Except.ok.inj hok
        subst h
        rfl
      · rw [if_neg hb] at hok
        exact Except.noConfusion hok
    · cases t <;> first
        | exact absurd rfl hf
        | exact Except.noConfusion hok
        | (have h := Except.ok.inj hok; subst h; rfl)
  | pyfloat q =>
    cases t <;> first
      | exact Except.noConfusion hok
      | (have h := Except.ok.inj hok; subst h; rfl)
  | pyinf b =>
    cases t <;> first
      | exact Except.noConfusion hok
      | (have h := Except.ok.inj hok; subst h; rfl)
  | pynan =>
    cases t <;> first
      | exact Except.noConfusion hok
      | (have h := Except.ok.inj hok; subst h; rfl)
  | pytuple l =>
    cases t <;> first
      | exact Except.noConfusion hok
      | (have h := Except.ok.inj hok; subst h; rfl)
  | pylist l =>
    cases t <;> first
      | exact Except.noConfusion hok
      | (have h := Except.ok.inj hok; subst h; rfl)
  | pydict d =>
    cases t <;> first
      | exact Except.noConfusion hok
      | (have h := Except.ok.inj hok; subst h; rfl)

/-- Witness for the amended C5: converting the declared-`int` value `"42"`
gives `42`, and converting `42` again gives `42`. -/
theorem convert_argument_idempotent_off_tuple_branch_witness :
    convertByType PyType.pyint (PyVal.pyint 42) = Except.ok (PyVal.pyint 42) :=
  convert_argument_idempotent_off_tuple_branch PyType.pyint (PyVal.pystr "42")
    (PyVal.pyint 42) rfl rfl (Or.inl rfl)

/-! ## `taco/core/message_handler.py` — `parse_tool_calls`

The regex `r'```json\s*(.*?)\s*```'` with `re.DOTALL` matches, at each scan
position, the literal ` ```json `, then lazily up to the first subsequent
` ``` `; the captured group is the text in between with surrounding whitespace
trimmed (the code strips it again with `.strip()` anyway), and scanning resumes
after the closing fence.  `findJsonBlocks` computes exactly these
(`match.group(0)`, `match.group(1).strip()`) pairs. -/

/-- JSON whitespace (`json.loads` skips exactly space, tab, newline, return). -/
def jsonWs (c : Char) : Bool :=
  c == ' ' || c == '\t' || c == '\n' || c == '\r'

/-- Hex digit value. -/
def hexVal (c : Char) : Option Nat :=
  if '0' ≤ c && c ≤ '9' then Option.some (c.toNat - 48)
  else if 'a' ≤ c && c ≤ 'f' then Option.some (c.toNat - 87)
  else if 'A' ≤ c && c ≤ 'F' then Option.some (c.toNat - 55)
  else Option.none

/-- JSON string body parser (after the opening quote): standard escapes,
`\uXXXX` with surrogate-pair combination, and rejection of raw control
characters (`json.loads` default `strict=True`).  CPython keeps an unpaired
surrogate escape as a lone surrogate code point in the resulting `str`; a Lean
`String` cannot hold one, so the parse consumes exactly the same input but the
resulting string is marked unrepresentable (`Option.none` in the first
component), which `blockSafe` below excludes from every theorem.  The fuel is
at least the input length and every step consumes at least one character. -/
def jsonStringAux : Nat → Bool → List Char → List Char →
    Option (Option String × List Char)
  | 0, _, _, _ => Option.none
  | _, bad, acc, [] => Option.none
  | Nat.succ fuel, bad, acc, c :: rest =>
    if c == '"' then
      Option.some ((if bad then Option.none else Option.some ⟨acc.reverse⟩), rest)
    else if c == '\\' then
      match rest with
      | [] => Option.none
      | e :: rest2 =>
        if e == '"' then jsonStringAux fuel bad ('"' :: acc) rest2
        else if e == '\\' then jsonStringAux fuel bad ('\\' :: acc) rest2
        else if e == '/' then jsonStringAux fuel bad ('/' :: acc) rest2
        else if e == 'b' then jsonStringAux fuel bad ('\x08' :: acc) rest2
        else if e == 'f' then jsonStringAux fuel bad ('\x0c' :: acc) rest2
        else if e == 'n' then jsonStringAux fuel bad ('\n' :: acc) rest2
        else if e == 'r' then jsonStringAux fuel bad ('\r' :: acc) rest2
        else if e == 't' then jsonStringAux fuel bad ('\t' :: acc) rest2
        else if e == 'u' then
          match rest2 with
          | a :: b :: cc :: d :: rest3 =>
            match hexVal a, hexVal b, hexVal cc, hexVal d with
            | Option.some ha, Option.some hb, Option.some hc, Option.some hd =>
              let n := ((ha * 16 + hb) * 16 + hc) * 16 + hd
              if 0xd800 ≤ n && n ≤ 0xdbff then
                match rest3 with
                | '\\' :: 'u' :: a2 :: b2 :: c2 :: d2 :: rest4 =>
                  match hexVal a2, hexVal b2, hexVal c2, hexVal d2 with
                  | Option.some h2a, Option.some h2b, Option.some h2c, Option.some h2d =>
                    let m := ((h2a * 16 + h2b) * 16 + h2c) * 16 + h2d
                    if 0xdc00 ≤ m && m ≤ 0xdfff then
                      jsonStringAux fuel bad
                        (Char.ofNat (0x10000 + (n - 0xd800) * 0x400 + (m - 0xdc00)) :: acc)
                        rest4
                    else jsonStringAux fuel true acc rest3
                  | _, _, _, _ => Option.none
                | _ => jsonStringAux fuel true acc rest3
              else if 0xdc00 ≤ n && n ≤ 0xdfff then jsonStringAux fuel true acc rest3
              else jsonStringAux fuel bad (Char.ofNat n :: acc) rest3
            | _, _, _, _ => Option.none
          | _ => Option.none
        else Option.none
    else if c.toNat < 0x20 then Option.none
    else jsonStringAux fuel bad (c :: acc) rest

/-- JSON number parser: `-? (0 | [1-9][0-9]*) (.digits)? ([eE][+-]?digits)?`.
No fraction and no exponent yields a Python `int`; otherwise a `float`,
modelled as the exact decimal rational (the embedding's float convention), with
one exception that changes the value's class: a decimal whose exact magnitude
reaches `floatOverflowBound` parses to an infinity, because `float(<string>)`
overflows to `inf` rather than raising. -/
def jsonNumber (l : List Char) : Option (PyVal × List Char) :=
  let signed : Bool × List Char :=
    match l with
    | '-' :: rest => (true, rest)
    | rest => (false, rest)
  let neg := signed.1
  let afterSign := signed.2
  let intDigits := afterSign.takeWhile Char.isDigit
  let afterInt := afterSign.dropWhile Char.isDigit
  if intDigits.isEmpty then Option.none
  else if intDigits.length > 1 && intDigits.headD '0' == '0' then Option.none
  else
    let intVal := digitsNat intDigits
    let fracPart : Option (Nat × Nat × List Char) :=
      match afterInt with
      | '.' :: rest2 =>
        let fd := rest2.takeWhile Char.isDigit
        if fd.isEmpty then Option.none
        else Option.some (digitsNat fd, fd.length, rest2.dropWhile Char.isDigit)
      | rest2 => Option.some (0, 0, rest2)
    match fracPart with
    | Option.none => Option.none
    | Option.some (fracVal, fracLen, afterFrac) =>
      let isFrac := decide (fracLen ≠ 0)
      let expPart : Option (Bool × Int × List Char) :=
        match afterFrac with
        | 'e' :: rest3 | 'E' :: rest3 =>
          let signedE : Bool × List Char :=
            match rest3 with
            | '+' :: r => (false, r)
            | '-' :: r => (true, r)
            | r => (false, r)
          let ed := signedE.2.takeWhile Char.isDigit
          if ed.isEmpty then Option.none
          else
            Option.some (true,
              (if signedE.1 then -(digitsNat ed : Int) else (digitsNat ed : Int)),
              signedE.2.dropWhile Char.isDigit)
        | rest3 => Option.some (false, 0, rest3)
      match expPart with
      | Option.none => Option.none
      | Option.some (hasExp, expVal, afterExp) =>
        if isFrac || hasExp then
          let mantissa : ℚ := (intVal : ℚ) + (fracVal : ℚ) / ((10 : ℚ) ^ fracLen)
          let scaled : ℚ :=
            if 0 ≤ expVal then mantissa * (10 : ℚ) ^ expVal.toNat
            else mantissa / ((10 : ℚ) ^ (-expVal).toNat)
          if (floatOverflowBound : ℚ) ≤ scaled then
            Option.some (PyVal.pyinf neg, afterExp)
          else
            Option.some (PyVal.pyfloat (if neg then -scaled else scaled), afterExp)
        else
          Option.some (PyVal.pyint (if neg then -(intVal : Int) else (intVal : Int)), afterExp)

/-- Insertion into a JSON object under construction: a repeated key replaces
the earlier value in place, as in a Python dict. -/
def dictInsert (d : List (String × PyVal)) (k : String) (v : PyVal) :
    List (String × PyVal) :=
  if d.any (fun e => e.1 == k) then
    d.map (fun e => if e.1 == k then (k, v) else e)
  else d ++ [(k, v)]

/-- Does `pre` start the list? (keyword matching helper). -/
def dropLit (pre : List Char) (l : List Char) : Option (List Char) :=
  if pre.isPrefixOf l then Option.some (l.drop pre.length) else Option.none

mutual

/-- JSON value parser (`json.loads` grammar, default settings, so the
constants `NaN`, `Infinity` and `-Infinity` are accepted).  The value
component is `Option PyVal`: `Option.none` there means CPython parses this
value but it contains a lone-surrogate string the embedding cannot represent
(consumption is tracked exactly either way). -/
def jsonValue : Nat → List Char → Option (Option PyVal × List Char)
  | 0, _ => Option.none
  | Nat.succ fuel, l =>
    let l := l.dropWhile jsonWs
    match l with
    | [] => Option.none
    | c :: cs =>
      if c == '"' then
        (jsonStringAux (cs.length + 1) false [] cs).map (fun p => (p.1.map PyVal.pystr, p.2))
      else if c == '\x7b' then
        jsonObject fuel (cs.dropWhile jsonWs) (Option.some [])
      else if c == '[' then
        jsonArray fuel (cs.dropWhile jsonWs) (Option.some [])
      else
        match dropLit "true".data l with
        | Option.some rest => Option.some (Option.some (PyVal.pybool true), rest)
        | Option.none =>
        match dropLit "false".data l with
        | Option.some rest => Option.some (Option.some (PyVal.pybool false), rest)
        | Option.none =>
        match dropLit "null".data l with
        | Option.some rest => Option.some (Option.some PyVal.none, rest)
        | Option.none =>
        match dropLit "NaN".data l with
        | Option.some rest => Option.some (Option.some PyVal.pynan, rest)
        | Option.none =>
        match dropLit "Infinity".data l with
        | Option.some rest => Option.some (Option.some (PyVal.pyinf false), rest)
        | Option.none =>
        match dropLit "-Infinity".data l with
        | Option.some rest => Option.some (Option.some (PyVal.pyinf true), rest)
        | Option.none => (jsonNumber l).map (fun p => (Option.some p.1, p.2))

/-- JSON object at the position right after `{` (and any whitespace): empty
object or first member.  The accumulator is `Option.none` once any key or
value was unrepresentable. -/
def jsonObject : Nat → List Char → Option (List (String × PyVal)) →
    Option (Option PyVal × List Char)
  | 0, _, _ => Option.none
  | Nat.succ fuel, l, acc =>
    match l with
    | '\x7d' :: rest => Option.some (acc.map PyVal.pydict, rest)
    | '"' :: cs => jsonMember fuel cs acc
    | _ => Option.none

/-- Object members after a comma (a closing brace is no longer allowed — JSON
forbids trailing commas). -/
def jsonObjectMore : Nat → List Char → Option (List (String × PyVal)) →
    Option (Option PyVal × List Char)
  | 0, _, _ => Option.none
  | Nat.succ fuel, l, acc =>
    match l with
    | '"' :: cs => jsonMember fuel cs acc
    | _ => Option.none

/-- One `"key": value` member (after the opening quote of the key), then the
comma/close continuation. -/
def jsonMember : Nat → List Char → Option (List (String × PyVal)) →
    Option (Option PyVal × List Char)
  | 0, _, _ => Option.none
  | Nat.succ fuel, cs, acc =>
    match jsonStringAux (cs.length + 1) false [] cs with
    | Option.none => Option.none
    | Option.some (keyOpt, rest1) =>
      match rest1.dropWhile jsonWs with
      | ':' :: rest2 =>
        match jsonValue fuel rest2 with
        | Option.none => Option.none
        | Option.some (vOpt, rest3) =>
          let acc2 : Option (List (String × PyVal)) :=
            match acc, keyOpt, vOpt with
            | Option.some d, Option.some k, Option.some v => Option.some (dictInsert d k v)
            | _, _, _ => Option.none
          match rest3.dropWhile jsonWs with
          | ',' :: rest4 => jsonObjectMore fuel (rest4.dropWhile jsonWs) acc2
          | '\x7d' :: rest4 => Option.some (acc2.map PyVal.pydict, rest4)
          | _ => Option.none
      | _ => Option.none

/-- JSON array at the position right after `[` (and any whitespace): empty
array or first element. -/
def jsonArray : Nat → List Char → Option (List PyVal) →
    Option (Option PyVal × List Char)
  | 0, _, _ => Option.none
  | Nat.succ fuel, l, acc =>
    match l with
    | ']' :: rest => Option.some (acc.map PyVal.pylist, rest)
    | _ => jsonElement fuel l acc

/-- One array element, then the comma/close continuation (after a comma a
closing bracket is not allowed, so trailing commas fail). -/
def jsonElement : Nat → List Char → Option (List PyVal) →
    Option (Option PyVal × List Char)
  | 0, _, _ => Option.none
  | Nat.succ fuel, l, acc =>
    match jsonValue fuel l with
    | Option.none => Option.none
    | Option.some (vOpt, rest1) =>
      let acc2 : Option (List PyVal) :=
        match acc, vOpt with
        | Option.some a, Option.some v => Option.some (a ++ [v])
        | _, _ => Option.none
      match rest1.dropWhile jsonWs with
      | ',' :: rest2 => jsonElement fuel (rest2.dropWhile jsonWs) acc2
      | ']' :: rest2 => Option.some (acc2.map PyVal.pylist, rest2)
      | _ => Option.none

end

/-- The `unicode_replacements` table built in `MessageHandler.__init__`, in
insertion (application) order. -/
def unicode_replacements : List (String × String) :=
  [("‘", "'"), ("’", "'"), ("“", "\""), ("”", "\""),
   ("–", "-"), ("—", "--"), ("…", "..."), (" ", " "),
   ("•", "*"), ("●", "*"), ("™", "(TM)"), ("®", "(R)"),
   ("©", "(C)"), ("°", " degrees"), ("±", "+/-"),
   ("¼", "1/4"), ("½", "1/2"), ("¾", "3/4"),
   ("←", "<-"), ("→", "->"), ("↔", "<->"),
   ("✓", "checkmark"), ("✗", "X"), ("∞", "infinity"),
   ("≠", "!="), ("≤", "<="), ("≥", ">="), ("≈", "~=")]

/-- Sequential application of all unicode replacements. -/
def applyReplacements (s : String) : String :=
  unicode_replacements.foldl (fun acc p => pyReplace acc p.1 p.2) s

/-- Does the non-capturing tail `(?:,\s*images=|$)` of the `content=` regex
match at this remainder?  `$` (no `MULTILINE`) matches at the end of the string
or just before a final newline. -/
def contentTailOk (rest : List Char) : Bool :=
  (match rest with
   | ',' :: r2 => "images=".data.isPrefixOf (r2.dropWhile pyIsSpace)
   | _ => false) ||
    rest.isEmpty || rest == ['\n']

/-- Lazy scan for the closing quote of the `content=(["'])(.*?)\1…` match: the
first position holding the quote character and followed by a matching tail
ends the group; a quote with a non-matching tail is consumed by the lazy group
(regex backtracking). -/
def scanQuote (q : Char) (acc : List Char) : List Char → Option (List Char)
  | [] => Option.none
  | c :: cs =>
    if c == q && contentTailOk cs then Option.some acc.reverse
    else scanQuote q (c :: acc) cs

/-- Attempt the `content=(["\'])(.*?)\1(?:,\s*images=|$)` match at this exact
position, returning group 2. -/
def contentMatchHere (l : List Char) : Option (List Char) :=
  match dropLit "content=".data l with
  | Option.none => Option.none
  | Option.some rest =>
    match rest with
    | q :: rest2 =>
      if q == '"' || q == '\'' then scanQuote q [] rest2 else Option.none
    | [] => Option.none

/-- `re.search`: try the match at each position, leftmost first. -/
def searchContent : List Char → Option (List Char)
  | [] => Option.none
  | c :: cs =>
    match contentMatchHere (c :: cs) with
    | Option.some g => Option.some g
    | Option.none => searchContent cs

/-- The Message-object unwrapping step of `clean_response_content`: for a
string looking like a stringified response wrapper, extract and strip the
`content=` payload. -/
def message_unwrap (content : String) : String :=
  if pyStartsWith content "model=" && pyContains content "message=Message(" then
    match searchContent content.data with
    | Option.some g => pyStrip ⟨g⟩
    | Option.none => content
  else content

/-- UTF-8 encoding of one code point (Lean chars are valid scalars). -/
def utf8EncodeChar (c : Char) : List Nat :=
  let n := c.toNat
  if n < 0x80 then [n]
  else if n < 0x800 then [0xc0 + n / 64, 0x80 + n % 64]
  else if n < 0x10000 then [0xe0 + n / 4096, 0x80 + (n / 64) % 64, 0x80 + n % 64]
  else [0xf0 + n / 262144, 0x80 + (n / 4096) % 64, 0x80 + (n / 64) % 64, 0x80 + n % 64]

/-- `content.encode('utf-8')`. -/
def utf8Encode (s : String) : List Nat :=
  (s.data.map utf8EncodeChar).flatten

/-- Hex digit value of a byte. -/
def hexValN (n : Nat) : Option Nat :=
  if 48 ≤ n && n ≤ 57 then Option.some (n - 48)
  else if 97 ≤ n && n ≤ 102 then Option.some (n - 87)
  else if 65 ≤ n && n ≤ 70 then Option.some (n - 55)
  else Option.none

/-- `bytes.decode('unicode-escape')`, producing a list of code points (Python
`str` may hold lone surrogates, which `Char` cannot, so the output stays at the
code-point level).  Non-escape bytes map through as Latin-1.  Recognized
escapes: line continuation, `\\ \' \" \a \b \f \n \r \t \v`, octal (up to
three digits), `\xhh`, `\uxxxx`, `\Uxxxxxxxx` (≤ 0x10FFFF); a malformed hex
escape or a trailing backslash is a decode error; an unrecognized escape keeps
the backslash and the character.  `\N{NAME}` resolution needs the Unicode name
database and is modelled as a decode error — the caller wraps this stage in
`try/except` and keeps the text on any error, and the final ASCII pass is
insensitive to the difference. -/
def uescapeAux : Nat → List Nat → Option (List Nat)
  | 0, _ => Option.none
  | _, [] => Option.some []
  | Nat.succ fuel, b :: bs =>
    if b != 92 then (uescapeAux fuel bs).map (b :: ·)
    else
      match bs with
      | [] => Option.none
      | e :: rest =>
        if e == 10 then uescapeAux fuel rest
        else if e == 92 then (uescapeAux fuel rest).map (92 :: ·)
        else if e == 39 then (uescapeAux fuel rest).map (39 :: ·)
        else if e == 34 then (uescapeAux fuel rest).map (34 :: ·)
        else if e == 97 then (uescapeAux fuel rest).map (7 :: ·)
        else if e == 98 then (uescapeAux fuel rest).map (8 :: ·)
        else if e == 102 then (uescapeAux fuel rest).map (12 :: ·)
        else if e == 110 then (uescapeAux fuel rest).map (10 :: ·)
        else if e == 114 then (uescapeAux fuel rest).map (13 :: ·)
        else if e == 116 then (uescapeAux fuel rest).map (9 :: ·)
        else if e == 118 then (uescapeAux fuel rest).map (11 :: ·)
        else if 48 ≤ e && e ≤ 55 then
          match rest with
          | d2 :: r2 =>
            if 48 ≤ d2 && d2 ≤ 55 then
              match r2 with
              | d3 :: r3 =>
                if 48 ≤ d3 && d3 ≤ 55 then
                  (uescapeAux fuel r3).map (((e - 48) * 64 + (d2 - 48) * 8 + (d3 - 48)) :: ·)
                else (uescapeAux fuel r2).map (((e - 48) * 8 + (d2 - 48)) :: ·)
              | [] => (uescapeAux fuel r2).map (((e - 48) * 8 + (d2 - 48)) :: ·)
            else (uescapeAux fuel rest).map ((e - 48) :: ·)
          | [] => (uescapeAux fuel rest).map ((e - 48) :: ·)
        else if e == 120 then
          match rest with
          | h1 :: h2 :: r2 =>
            match hexValN h1, hexValN h2 with
            | Option.some v1, Option.some v2 => (uescapeAux fuel r2).map ((v1 * 16 + v2) :: ·)
            | _, _ => Option.none
          | _ => Option.none
        else if e == 117 then
          match rest with
          | h1 :: h2 :: h3 :: h4 :: r2 =>
            match hexValN h1, hexValN h2, hexValN h3, hexValN h4 with
            | Option.some v1, Option.some v2, Option.some v3, Option.some v4 =>
              (uescapeAux fuel r2).map ((((v1 * 16 + v2) * 16 + v3) * 16 + v4) :: ·)
            | _, _, _, _ => Option.none
          | _ => Option.none
        else if e == 85 then
          match rest with
          | h1 :: h2 :: h3 :: h4 :: h5 :: h6 :: h7 :: h8 :: r2 =>
            match hexValN h1, hexValN h2, hexValN h3, hexValN h4,
                hexValN h5, hexValN h6, hexValN h7, hexValN h8 with
            | Option.some v1, Option.some v2, Option.some v3, Option.some v4,
                Option.some v5, Option.some v6, Option.some v7, Option.some v8 =>
              let v := ((((((v1 * 16 + v2) * 16 + v3) * 16 + v4) * 16 + v5) * 16 + v6)
                * 16 + v7) * 16 + v8
              if v ≤ 0x10ffff then (uescapeAux fuel r2).map (v :: ·) else Option.none
            | _, _, _, _, _, _, _, _ => Option.none
          | _ => Option.none
        else if e == 78 then Option.none
        else (uescapeAux fuel rest).map (fun t => 92 :: e :: t)

/-- `bytes.decode('unicode-escape')` at sufficient fuel (each step consumes at
least one byte). -/
def uescape (l : List Nat) : Option (List Nat) :=
  uescapeAux (l.length + 1) l

/-- The final cleanup of `clean_response_content`:
`content.encode('ascii', errors='replace').decode('ascii')` maps every
non-ASCII code point to `'?'`, then `.replace('?', ' ')` turns every question
mark (original or introduced) into a space. -/
def asciiStage (codes : List Nat) : String :=
  let replaced := codes.map (fun n => if n < 128 then n else 63)
  let spaced := replaced.map (fun n => if n == 63 then 32 else n)
  ⟨spaced.map Char.ofNat⟩

/-- `MessageHandler.clean_response_content(content)` for string input: unwrap a
stringified Message object, normalize typographic Unicode, decode literal
escape sequences when `\n`, `\u` or `\x` appear (keeping the text if decoding
fails), then force the result to ASCII with `'?'` replacement and turn every
`'?'` into a space. -/
def clean_response_content (content : String) : String :=
  let content1 := message_unwrap content
  let content2 := applyReplacements content1
  let codes : List Nat :=
    if pyContains content2 "\\n" || pyContains content2 "\\u" || pyContains content2 "\\x" then
      match uescape (utf8Encode content2) with
      | Option.some cs => cs
      | Option.none => content2.data.map Char.toNat
    else content2.data.map Char.toNat
  asciiStage codes

/-! ### Claim C10 -/

/-- Each code point below 128, after the question-mark-to-space substitution,
yields an ASCII character other than `'?'`. -/
theorem asciiChar_safe :
    ∀ n, n < 128 →
      (Char.ofNat (if n == 63 then 32 else n)).toNat < 128 ∧
        Char.ofNat (if n == 63 then 32 else n) ≠ '?' := by
  decide

/-- Every character the final cleanup emits is ASCII and is not `'?'`. -/
theorem asciiStage_safe (codes : List Nat) :
    ∀ c ∈ (asciiStage codes).data, c.toNat < 128 ∧ c ≠ '?' := by
  intro c hc
  unfold asciiStage at hc
  simp only [List.mem_map] at hc
  obtain ⟨m, hm, rfl⟩ := hc
  obtain ⟨k, hk, rfl⟩ := hm
  obtain ⟨n, _hn, rfl⟩ := hk
  have hklt : (if n < 128 then n else 63) < 128 := by
    split <;> omega
  exact asciiChar_safe _ hklt

/-- **C10.**  For every input string, `clean_response_content` returns a string
containing only ASCII characters and no `'?'`: the final
`encode('ascii', errors='replace')` pass maps every non-ASCII code point to
`'?'`, and the subsequent `replace('?', ' ')` turns every question mark —
including ones present in the original input — into a space. -/
theorem clean_response_content_ascii_no_questionmark (s : String) :
    ∀ c ∈ (clean_response_content s).data, c.toNat < 128 ∧ c ≠ '?' := by
  intro c hc
  exact asciiStage_safe _ c hc

/-- Witness for C10 at the input `"ok?"`: the result is `"ok "`, whose first
character is ASCII and is not a question mark. -/
theorem clean_response_content_ascii_no_questionmark_witness :
    'o'.toNat < 128 ∧ 'o' ≠ '?' :=
  clean_response_content_ascii_no_questionmark "ok?" 'o' (by decide)
